import Mathlib

/-!
Verification of `Scripts/massrun_TALYS.py`: a shallow embedding of the
TALYS run-preparation script (directory naming, input-file generation,
numeric-coercion filtering of the nuclide table) together with theorems
checking the natural-language specification against it.

Numeric cell values coming from the spreadsheet (Python floats/ints) are
modelled as exact rationals given by an integer numerator and a positive
denominator, kept unreduced so that every operation the script performs
(truncation by `int()`, fixed 3-decimal formatting) is computable integer
arithmetic.
-/

namespace MassrunTALYS

/-- An exact numeric value: numerator over a (positive) denominator.
Models the Python numbers held in spreadsheet cells. -/
structure PyNum where
  num : Int
  den : Nat
deriving DecidableEq, Repr

/-- A spreadsheet cell as seen by pandas: a number, a string, or a
missing value (NaN). -/
inductive Cell where
| num (v : PyNum)
| str (s : String)
| blank
deriving DecidableEq, Repr

/-- One row of the nuclide table (`Sheet1`, columns
"Ydin", "N", "Z", "A", "MEJYFL", "MEAME20"; lines 28). -/
structure Nuclide where
  ydin : String
  n : Cell
  z : Cell
  a : Cell
  mejyfl : Cell
  meame20 : Cell
deriving DecidableEq, Repr

/-- One row of the reaction table (`Sheet2`, columns
"Target", "Projectile", "Ejectile", "Compound"; lines 30-33). -/
structure Reaction where
  target : String
  projectile : String
  ejectile : String
  compound : String
deriving DecidableEq, Repr

/-- Value of a decimal digit character, if it is one. -/
def digitVal (c : Char) : Option Nat :=
  if c.isDigit then some (c.toNat - 48) else none

/-- Accumulate the value of a digit string; fails on a non-digit. -/
def decDigitsAux : List Char → Nat → Option Nat
| [], acc => some acc
| c :: cs, acc =>
  match digitVal c with
  | some d => decDigitsAux cs (acc * 10 + d)
  | none => none

/-- Value of a nonempty all-digit character list. -/
def decDigits (cs : List Char) : Option Nat :=
  if cs.isEmpty then none else decDigitsAux cs 0

/-- Strip an optional leading sign, returning whether it was a minus. -/
def splitSign : List Char → Bool × List Char
| '-' :: cs => (true, cs)
| '+' :: cs => (false, cs)
| cs => (false, cs)

/-- String-to-number coercion as done by `pandas.to_numeric`, restricted
to plain decimal literals: optional sign, digits, optional '.' digits. -/
def parseDecimal (s : String) : Option PyNum :=
  let p := splitSign s.data
  match p.2.splitOn '.' with
  | [ipart] =>
    (decDigits ipart).map fun i =>
      ⟨if p.1 then -(i : Int) else (i : Int), 1⟩
  | [ipart, fpart] =>
    match decDigits ipart, decDigits fpart with
    | some i, some f =>
      let k := fpart.length
      let v : Int := (i : Int) * (10 : Int) ^ k + (f : Int)
      some ⟨if p.1 then -v else v, 10 ^ k⟩
    | _, _ => none
  | _ => none

/-- Python `int(str)`: optional sign followed by digits only. -/
def parsePyInt (s : String) : Option Int :=
  let p := splitSign s.data
  (decDigits p.2).map fun i => if p.1 then -(i : Int) else (i : Int)

/-- Python `int()` on a number: truncation toward zero. -/
def pyIntOfNum (v : PyNum) : Int :=
  Int.tdiv v.num (v.den : Int)

/-- Python `int()` applied to a cell value: truncation for numbers,
strict integer parsing for strings, a `ValueError` (`none`) for NaN. -/
def pyInt : Cell → Option Int
| .num v => some (pyIntOfNum v)
| .str s => parsePyInt s
| .blank => none

/-- `pandas.to_numeric(..., errors="coerce")` on one cell: numbers pass
through, numeric strings parse, everything else becomes NaN (`none`). -/
def toNumeric : Cell → Option PyNum
| .num v => some v
| .str s => parseDecimal s
| .blank => none

/-- Zero-pad a natural number below 1000 to three digits. -/
def pad3 (n : Nat) : String :=
  if n < 10 then "00" ++ toString n
  else if n < 100 then "0" ++ toString n
  else toString n

/-- Python `f"{x:.3f}"` on the exact value: round to the nearest
thousandth (ties away from the floor, approximating the float tie
behaviour) and print with exactly three decimals. -/
def fmt3 (v : PyNum) : String :=
  let n : Int := Int.fdiv (v.num * 2000 + (v.den : Int)) (2 * (v.den : Int))
  let sign := if n < 0 then "-" else ""
  sign ++ toString (n.natAbs / 1000) ++ "." ++ pad3 (n.natAbs % 1000)

/-- Zero-pad a natural number below 100 to two digits. -/
def pad2 (n : Nat) : String :=
  if n < 10 then "0" ++ toString n else toString n

/-- A calendar date, the input of `datetime.strftime`. -/
structure Date where
  day : Nat
  month : Nat
  year : Nat
deriving DecidableEq, Repr

/-- `datetime.strftime("%d%m%y")` (line 54): two zero-padded digits each
for day, month and year modulo 100. -/
def strftimeDDMMYY (d : Date) : String :=
  pad2 d.day ++ pad2 d.month ++ pad2 (d.year % 100)

/-- Outcome of the `directory_path.mkdir` attempt (lines 64-72): the
exceptions the script catches, or success. -/
inductive MkdirResult where
| created
| alreadyExists
| permissionDenied
| otherError (msg : String)
deriving DecidableEq, Repr

/-- Line 57: `"Run-" + today + "_" + projectile + target + "-" + l + s + m`. -/
def directory_name (projectile target : String) (l s m : Int) (today : String) : String :=
  "Run-" ++ today ++ "_" ++ projectile ++ target ++ "-"
    ++ toString l ++ toString s ++ toString m

/-- `make_dir` (lines 38-73): compute the name, attempt creation (whose
outcome is the explicit `res` argument), swallow every exception, and
return the computed name. -/
def make_dir (projectile target : String) (l s m : Int) (date : Date)
    (res : MkdirResult) : String :=
  let name := directory_name projectile target l s m (strftimeDDMMYY date)
  match res with
  | .created => name
  | .alreadyExists => name
  | .permissionDenied => name
  | .otherError _ => name

/-- Lines 108-112: coerce Z, A and MEJYFL of every nuclide row and drop
the rows where any of the three fails. -/
def df_me (nucl_info : List Nuclide) : List (PyNum × PyNum × PyNum) :=
  nucl_info.filterMap fun r =>
    match toNumeric r.z, toNumeric r.a, toNumeric r.mejyfl with
    | some zn, some an, some men => some (zn, an, men)
    | _, _, _ => none

/-- Line 139: `f"massexcess {int(Z)} {int(A)} {float(ME):.3f}\n"`. -/
def massexcessLine (row : PyNum × PyNum × PyNum) : String :=
  "massexcess " ++ toString (pyIntOfNum row.1) ++ " "
    ++ toString (pyIntOfNum row.2.1) ++ " " ++ fmt3 row.2.2 ++ "\n"

/-- `write_input` (lines 114-140) as the ordered sequence of `f.write`
payloads. Python renders the literal `{0.1}` as `0.1` and `{1.0E-25}`
as `1e-25`. -/
def write_input_writes (projectile : String) (Z_target A_target : Int)
    (l s m : Int) (rows : List (PyNum × PyNum × PyNum)) : List String :=
  ["energy 0.1\n",
   "projectile " ++ projectile ++ "\n",
   "element " ++ toString Z_target ++ "\n",
   "mass " ++ toString A_target ++ "\n",
   "ldmodel " ++ toString l ++ "\n",
   "strength " ++ toString s ++ "\n",
   "massmodel " ++ toString m ++ "\n",
   "astro y\n",
   "transeps 1e-25\n",
   "xseps 1e-25\n",
   "popeps 1e-25\n",
   "gnorm y\n",
   "outlevels y\n",
   "outdensity y\n",
   "outgamma y\n",
   "expmass y\n"]
  ++ rows.map massexcessLine

/-- The byte content written to the input file: the concatenation of the
`f.write` payloads in order. -/
def write_input (projectile : String) (Z_target A_target : Int) (l s m : Int)
    (rows : List (PyNum × PyNum × PyNum)) : String :=
  String.join (write_input_writes projectile Z_target A_target l s m rows)

/-- `make_input` up to the file write (lines 95-140), in source order:
reaction lookup (line 95, `KeyError` when the index is out of range),
first-match target row lookup (line 99, `IndexError` when no Ydin equals
the target), `int(row["Z"])` and `int(row["A"])` (lines 100-101,
`ValueError` when not convertible), then the numeric filtering and the
content. Every error is raised before the file is opened (line 144). -/
def make_input_content (nucl_info : List Nuclide) (reactions : List Reaction)
    (process : Nat) (l s m : Int) : Except String String :=
  match reactions[process]? with
  | none => .error "KeyError: reaction index out of range"
  | some reaction =>
    match nucl_info.find? (fun r => r.ydin == reaction.target) with
    | none => .error "IndexError: iloc on empty selection"
    | some row =>
      match pyInt row.z with
      | none => .error "ValueError: target Z not an integer"
      | some Z_target =>
        match pyInt row.a with
        | none => .error "ValueError: target A not an integer"
        | some A_target =>
          .ok (write_input reaction.projectile Z_target A_target l s m
                (df_me nucl_info))

/-- The input file's content after `make_input` (lines 142-149), given
its previous content (`none` when absent): on any exception before the
open, the file is untouched; otherwise `open(.., "x")` creates it fresh,
and on `FileExistsError` the `open(.., "w")` branch truncates and
rewrites it. -/
def make_input_fs (prev : Option String) (nucl_info : List Nuclide)
    (reactions : List Reaction) (process : Nat) (l s m : Int) : Option String :=
  match make_input_content nucl_info reactions process l s m with
  | .error _ => prev
  | .ok content =>
    match prev with
    | none => some content
    | some _ => some content

/-- An observable filesystem side effect of a run. -/
inductive Effect where
| mkdirEff (path : String)
| writeFileEff (path : String) (content : String)
deriving DecidableEq, Repr

/-- Whether the run directory exists after the `mkdir` attempt: it does
when creation succeeded or the directory already existed; after a
`PermissionError` or any other creation failure it does not. -/
def dirExists : MkdirResult → Bool
| .created => true
| .alreadyExists => true
| .permissionDenied => false
| .otherError _ => false

/-- The filesystem change made by the `mkdir` attempt itself: only a
successful creation changes anything. -/
def mkdirEffects (mk : MkdirResult) (path : String) : List Effect :=
  match mk with
  | .created => [.mkdirEff path]
  | .alreadyExists => []
  | .permissionDenied => []
  | .otherError _ => []

/-- `make_input` including the file open (lines 76-150): the pre-open
computations and their errors (lines 95-112) come first; then, when the
run directory exists, the open/write of lines 142-149 produces the file;
when the directory is missing (its creation failed), `open(input_path,
"x")` at line 144 raises `FileNotFoundError`, which the
`except FileExistsError` at line 146 does not catch, so it propagates
uncaught and nothing is written. -/
def make_input_run (nucl_info : List Nuclide) (reactions : List Reaction)
    (process : Nat) (l s m : Int) (dirOk : Bool) (inputPath : String) :
    List Effect × Except String Unit :=
  match make_input_content nucl_info reactions process l s m with
  | .error e => ([], .error e)
  | .ok content =>
    if dirOk then ([.writeFileEff inputPath content], .ok ())
    else ([], .error "FileNotFoundError: run directory missing")

/-- `main` (lines 160-191) after `parse_data`, for a requested reaction
index (the source hardcodes `process = 0` at line 173, marked TODO for a
CLI choice): the target/projectile lookup at lines 180-181 runs first,
then `make_dir` (line 188), then `make_input` (line 189), whose open
step depends on whether the directory creation left a directory behind.
Returns the ordered filesystem effects and the final outcome. -/
def pyMain (nucl_info : List Nuclide) (reactions : List Reaction)
    (l s m : Int) (date : Date) (mk : MkdirResult) (process : Nat)
    (runs : String) : List Effect × Except String Unit :=
  match reactions[process]? with
  | none => ([], .error "KeyError: reaction index out of range")
  | some reaction =>
    let run_dir := make_dir reaction.projectile reaction.target l s m date mk
    let step := make_input_run nucl_info reactions process l s m (dirExists mk)
        (runs ++ "/" ++ run_dir ++ "/" ++ run_dir ++ "_input.txt")
    (mkdirEffects mk (runs ++ "/" ++ run_dir) ++ step.1, step.2)

/-- A key-value line as the specification describes it: key, single
space, value, newline. -/
def kvLine (k v : String) : String := k ++ " " ++ v ++ "\n"

/-- The sixteen fixed lines of the input file, in the order and form the
specification states them. -/
def specFixedLines (projectile : String) (Z_target A_target : Int)
    (l s m : Int) : List String :=
  [kvLine "energy" "0.1",
   kvLine "projectile" projectile,
   kvLine "element" (toString Z_target),
   kvLine "mass" (toString A_target),
   kvLine "ldmodel" (toString l),
   kvLine "strength" (toString s),
   kvLine "massmodel" (toString m),
   kvLine "astro" "y",
   kvLine "transeps" "1e-25",
   kvLine "xseps" "1e-25",
   kvLine "popeps" "1e-25",
   kvLine "gnorm" "y",
   kvLine "outlevels" "y",
   kvLine "outdensity" "y",
   kvLine "outgamma" "y",
   kvLine "expmass" "y"]

/-- The per-nuclide line as the specification describes it:
`massexcess <Z integer> <A integer> <mass-excess, 3 decimals>`. -/
def specMassLine (row : PyNum × PyNum × PyNum) : String :=
  kvLine "massexcess"
    (toString (pyIntOfNum row.1) ++ " " ++ toString (pyIntOfNum row.2.1)
      ++ " " ++ fmt3 row.2.2)

/-- The directory-name format exactly as the specification section 4.2
words it: `Run-<DDMMYY>-<projectile><target>-<ldmodel><strength><massmodel>`,
with a hyphen between the date and the projectile. -/
def specDirNameHyphen (projectile target : String) (l s m : Int)
    (d : Date) : String :=
  "Run-" ++ pad2 d.day ++ pad2 d.month ++ pad2 (d.year % 100) ++ "-"
    ++ projectile ++ target ++ "-" ++ toString l ++ toString s ++ toString m

/-- The directory-name format actually produced by line 57: an
underscore between the date and the projectile. -/
def specDirName (projectile target : String) (l s m : Int)
    (d : Date) : String :=
  "Run-" ++ pad2 d.day ++ pad2 d.month ++ pad2 (d.year % 100) ++ "_"
    ++ projectile ++ target ++ "-" ++ toString l ++ toString s ++ toString m

/-- Rows that agree on every column `make_input` reads: Ydin, Z, A and
MEJYFL (the N and MEAME20 columns are loaded but unused). -/
def SameUsedColumns (r₁ r₂ : Nuclide) : Prop :=
  r₁.ydin = r₂.ydin ∧ r₁.z = r₂.z ∧ r₁.a = r₂.a ∧ r₁.mejyfl = r₂.mejyfl

/-- Scenario A nuclide: 56Ni with Z=28, A=56, MEJYFL=-53.9, MEAME20=-54. -/
def ni56 : Nuclide :=
  ⟨"56Ni", .num ⟨28, 1⟩, .num ⟨28, 1⟩, .num ⟨56, 1⟩, .num ⟨-539, 10⟩, .num ⟨-54, 1⟩⟩

/-- Scenario A nuclide with the unused columns (N, MEAME20) perturbed. -/
def ni56alt : Nuclide :=
  ⟨"56Ni", .blank, .num ⟨28, 1⟩, .num ⟨56, 1⟩, .num ⟨-539, 10⟩, .str "x"⟩

/-- A 56Ni row whose Z cell is a non-numeric string. -/
def ni56badZ : Nuclide :=
  ⟨"56Ni", .num ⟨28, 1⟩, .str "n/a", .num ⟨56, 1⟩, .num ⟨-539, 10⟩, .blank⟩

/-- A row whose designated mass-excess cell is the string "N/A". -/
def rowNA : Nuclide :=
  ⟨"57Cu", .num ⟨28, 1⟩, .num ⟨29, 1⟩, .num ⟨57, 1⟩, .str "N/A", .blank⟩

/-- Scenario A reaction table: p + 56Ni → g + 57Cu. -/
def rxA : List Reaction := [⟨"56Ni", "p", "g", "57Cu"⟩]

/-- A three-row reaction table, for the out-of-range scenario. -/
def rxTable3 : List Reaction :=
  [⟨"56Ni", "p", "g", "57Cu"⟩, ⟨"57Cu", "p", "g", "58Zn"⟩, ⟨"58Zn", "p", "g", "59Ga"⟩]

/-- The full Scenario A input-file content. -/
def scenarioAContent : String :=
  "energy 0.1\nprojectile p\nelement 28\nmass 56\nldmodel 5\nstrength 8\nmassmodel 2\nastro y\ntranseps 1e-25\nxseps 1e-25\npopeps 1e-25\ngnorm y\noutlevels y\noutdensity y\noutgamma y\nexpmass y\nmassexcess 28 56 -53.900\n"

/-- Joining a cons: the head followed by the join of the tail. -/
theorem join_cons (s : String) (l : List String) :
    String.join (s :: l) = s ++ String.join l := by
  apply String.ext
  simp [String.join_eq]

/-- Joining an append splits into the two joins. -/
theorem join_append (l₁ l₂ : List String) :
    String.join (l₁ ++ l₂) = String.join l₁ ++ String.join l₂ := by
  apply String.ext
  simp [String.join_eq]

/-- The spec's rendering of a massexcess line coincides with the f-string
of line 139. -/
theorem specMassLine_eq_massexcessLine : specMassLine = massexcessLine := by
  funext row
  simp [specMassLine, massexcessLine, kvLine, String.append_assoc]

/-- On the success path (valid reaction index, a nuclide row matching the
target symbol, integer-convertible Z and A on that row), `make_input`
produces exactly the `write_input` content for the filtered table. -/
theorem make_input_content_ok (nucl_info : List Nuclide) (reactions : List Reaction)
    (process : Nat) (l s m : Int) (reaction : Reaction) (row : Nuclide)
    (Z_target A_target : Int)
    (h1 : reactions[process]? = some reaction)
    (h2 : nucl_info.find? (fun r => r.ydin == reaction.target) = some row)
    (h3 : pyInt row.z = some Z_target)
    (h4 : pyInt row.a = some A_target) :
    make_input_content nucl_info reactions process l s m =
      .ok (write_input reaction.projectile Z_target A_target l s m (df_me nucl_info)) := by
  simp [make_input_content, h1, h2, h3, h4]

/-- C1: on every success path, the written file is exactly the sixteen
fixed key-value lines (key, single space, value, newline) in the
specified order — energy 0.1, projectile, element, mass, ldmodel,
strength, massmodel, astro y, transeps 1e-25, xseps 1e-25, popeps 1e-25,
gnorm y, outlevels y, outdensity y, outgamma y, expmass y — followed by
one `massexcess <Z> <A> <ME, 3 decimals>` line per surviving nuclide
row of `df_me`. -/
theorem input_file_exact_lines (nucl_info : List Nuclide) (reactions : List Reaction)
    (process : Nat) (l s m : Int) (reaction : Reaction) (row : Nuclide)
    (Z_target A_target : Int)
    (h1 : reactions[process]? = some reaction)
    (h2 : nucl_info.find? (fun r => r.ydin == reaction.target) = some row)
    (h3 : pyInt row.z = some Z_target)
    (h4 : pyInt row.a = some A_target) :
    make_input_content nucl_info reactions process l s m =
      .ok (String.join (specFixedLines reaction.projectile Z_target A_target l s m
            ++ (df_me nucl_info).map specMassLine)) := by
  rw [make_input_content_ok nucl_info reactions process l s m reaction row
    Z_target A_target h1 h2 h3 h4]
  simp [write_input, write_input_writes, specFixedLines, kvLine,
    specMassLine_eq_massexcessLine]

/-- C1 witness: Scenario A data satisfies the hypotheses and the file
content is the specified line sequence. -/
theorem input_file_exact_lines_witness :
    make_input_content [ni56] rxA 0 5 8 2 =
      .ok (String.join (specFixedLines "p" 28 56 5 8 2 ++ (df_me [ni56]).map specMassLine)) :=
  input_file_exact_lines [ni56] rxA 0 5 8 2 ⟨"56Ni", "p", "g", "57Cu"⟩ ni56 28 56
    rfl rfl rfl rfl

/-- C2: a row whose Z, A or MEJYFL cell fails numeric coercion
contributes no massexcess row (and the filtering itself is a total
function, so no error is raised), a row where all three coerce
contributes exactly one row with its coerced values, and contributions
stay in original table order. -/
theorem massexcess_row_filtering (pre post : List Nuclide) (r : Nuclide) :
    ((toNumeric r.z = none ∨ toNumeric r.a = none ∨ toNumeric r.mejyfl = none) →
      df_me (pre ++ r :: post) = df_me pre ++ df_me post) ∧
    (∀ zn an men, toNumeric r.z = some zn → toNumeric r.a = some an →
      toNumeric r.mejyfl = some men →
      df_me (pre ++ r :: post) = df_me pre ++ (zn, an, men) :: df_me post) := by
  constructor
  · intro h
    cases hz : toNumeric r.z <;> cases ha : toNumeric r.a <;>
      cases hme : toNumeric r.mejyfl <;>
      simp_all [df_me, List.filterMap_append, List.filterMap_cons]
  · intro zn an men hz ha hme
    simp [df_me, List.filterMap_append, List.filterMap_cons, hz, ha, hme]

/-- C2 witness: the "N/A" mass-excess row is dropped, the valid 56Ni row
contributes exactly its coerced triple, in place. -/
theorem massexcess_row_filtering_witness :
    df_me [ni56, rowNA] = df_me [ni56] ++ df_me [] ∧
    df_me [rowNA, ni56] = df_me [rowNA] ++ (⟨28, 1⟩, ⟨56, 1⟩, ⟨-539, 10⟩) :: df_me [] :=
  ⟨(massexcess_row_filtering [ni56] [] rowNA).1 (Or.inr (Or.inr rfl)),
   (massexcess_row_filtering [rowNA] [] ni56).2 ⟨28, 1⟩ ⟨56, 1⟩ ⟨-539, 10⟩ rfl rfl rfl⟩

/-- C3 counterexample: at date 01-01-25 with projectile "p", target
"56Ni" and parameters (5,8,2), the computed directory name is NOT of the
claimed hyphen-separated form `Run-<DDMMYY>-<projectile>...` (the code
puts an underscore after the date). -/
theorem dir_name_hyphen_format_refuted :
    make_dir "p" "56Ni" 5 8 2 ⟨1, 1, 25⟩ .created ≠
      specDirNameHyphen "p" "56Ni" 5 8 2 ⟨1, 1, 25⟩ := by
  decide

/-- C3 amended: for every projectile, target, parameters, date and
creation outcome, the directory name is exactly
`Run-<DDMMYY>_<projectile><target>-<ldmodel><strength><massmodel>`, with
an underscore between the zero-padded DDMMYY date and the projectile. -/
theorem dir_name_underscore_format (projectile target : String) (l s m : Int)
    (d : Date) (res : MkdirResult) :
    make_dir projectile target l s m d res = specDirName projectile target l s m d := by
  cases res <;>
    simp [make_dir, directory_name, specDirName, strftimeDDMMYY, String.append_assoc]

/-- C4 counterexample: requesting reaction index 5 against a 3-row
reaction table fails fatally, but with NO filesystem side effects at
all: the effect trace is empty, refuting the claim that the run
directory is created before the failing lookup (the lookup at line 180
precedes `make_dir` at line 188). -/
theorem out_of_range_no_dir_created :
    (pyMain [ni56] rxTable3 5 8 2 ⟨1, 1, 25⟩ .created 5 "runs").1 = [] ∧
    (pyMain [ni56] rxTable3 5 8 2 ⟨1, 1, 25⟩ .created 5 "runs").2 =
      .error "KeyError: reaction index out of range" :=
  ⟨rfl, rfl⟩

/-- C4 amended: whenever the requested reaction index is out of range
for the reaction table, the run fails fatally with the out-of-range
error and produces no filesystem side effect whatsoever — no directory
is created (the reaction lookup precedes directory creation) and no
input file is written. -/
theorem out_of_range_fatal_no_effects (nucl_info : List Nuclide)
    (reactions : List Reaction) (l s m : Int) (date : Date) (mk : MkdirResult)
    (process : Nat) (runs : String) (h : reactions.length ≤ process) :
    pyMain nucl_info reactions l s m date mk process runs =
      ([], .error "KeyError: reaction index out of range") := by
  simp [pyMain, List.getElem?_eq_none h]

/-- C4 witness: index 5 against the concrete 3-row table. -/
theorem out_of_range_fatal_no_effects_witness :
    pyMain [] rxTable3 5 8 2 ⟨1, 1, 25⟩ .created 5 "runs" =
      ([], .error "KeyError: reaction index out of range") :=
  out_of_range_fatal_no_effects [] rxTable3 5 8 2 ⟨1, 1, 25⟩ .created 5 "runs" (by decide)

/-- C5: when no nuclide row's Ydin symbol equals the selected reaction's
target, `make_input` fails with the empty-selection error and the input
file is left untouched (no partial output). -/
theorem zero_target_match_fatal (nucl_info : List Nuclide) (reactions : List Reaction)
    (process : Nat) (l s m : Int) (reaction : Reaction) (prev : Option String)
    (h1 : reactions[process]? = some reaction)
    (h2 : nucl_info.find? (fun r => r.ydin == reaction.target) = none) :
    (∃ e, make_input_content nucl_info reactions process l s m = .error e) ∧
    make_input_fs prev nucl_info reactions process l s m = prev := by
  refine ⟨⟨"IndexError: iloc on empty selection", ?_⟩, ?_⟩
  · simp [make_input_content, h1, h2]
  · simp [make_input_fs, make_input_content, h1, h2]

/-- C5 witness: an empty nuclide table against Scenario A's reaction. -/
theorem zero_target_match_fatal_witness :
    (∃ e, make_input_content [] rxA 0 5 8 2 = .error e) ∧
    make_input_fs none [] rxA 0 5 8 2 = none :=
  zero_target_match_fatal [] rxA 0 5 8 2 ⟨"56Ni", "p", "g", "57Cu"⟩ none rfl rfl

/-- C6: the Writer is idempotent — running it twice with identical
inputs leaves the same file state as running it once, and whenever
content generation succeeds, the first invocation creates the file and
the second (overwrite path) replaces it with byte-identical content. -/
theorem writer_idempotent (nucl_info : List Nuclide) (reactions : List Reaction)
    (process : Nat) (l s m : Int) :
    make_input_fs (make_input_fs none nucl_info reactions process l s m)
        nucl_info reactions process l s m =
      make_input_fs none nucl_info reactions process l s m ∧
    (∀ c, make_input_content nucl_info reactions process l s m = .ok c →
      make_input_fs none nucl_info reactions process l s m = some c ∧
      make_input_fs (some c) nucl_info reactions process l s m = some c) := by
  cases h : make_input_content nucl_info reactions process l s m with
  | error e => simp [make_input_fs, h]
  | ok c => simp [make_input_fs, h]

/-- C6 witness: Scenario A data; both invocations yield the same bytes. -/
theorem writer_idempotent_witness :
    make_input_fs none [ni56] rxA 0 5 8 2 = some scenarioAContent ∧
    make_input_fs (some scenarioAContent) [ni56] rxA 0 5 8 2 = some scenarioAContent :=
  (writer_idempotent [ni56] rxA 0 5 8 2).2 scenarioAContent rfl

/-- C7: `make_dir` returns the computed directory name for every
creation outcome; all creation failures (already-exists, permission
denied, any other exception) are swallowed, and execution continues to
the write stage under the returned name for every outcome: the run's
result is the mkdir attempt's own effect followed by the write stage run
on the path built from the computed name. When content generation
succeeds but the directory is missing (creation failed), that later
write stage fails with `FileNotFoundError` and no file is written. -/
theorem make_dir_swallows_creation_failures (projectile target : String)
    (l s m : Int) (d : Date) (nucl_info : List Nuclide) (reactions : List Reaction)
    (process : Nat) (runs : String) :
    (∀ res, make_dir projectile target l s m d res =
      directory_name projectile target l s m (strftimeDDMMYY d)) ∧
    (∀ res reaction, reactions[process]? = some reaction →
      pyMain nucl_info reactions l s m d res process runs =
        (let name := directory_name reaction.projectile reaction.target l s m
          (strftimeDDMMYY d)
         let step := make_input_run nucl_info reactions process l s m (dirExists res)
           (runs ++ "/" ++ name ++ "/" ++ name ++ "_input.txt")
         (mkdirEffects res (runs ++ "/" ++ name) ++ step.1, step.2))) ∧
    (∀ res reaction c, reactions[process]? = some reaction →
      make_input_content nucl_info reactions process l s m = .ok c →
      dirExists res = false →
      (pyMain nucl_info reactions l s m d res process runs).2 =
        .error "FileNotFoundError: run directory missing" ∧
      ∀ p content, Effect.writeFileEff p content ∉
        (pyMain nucl_info reactions l s m d res process runs).1) := by
  refine ⟨?_, ?_, ?_⟩
  · intro res
    cases res <;> rfl
  · intro res reaction h
    cases res <;> simp [pyMain, h, make_dir]
  · intro res reaction c h hc hdir
    cases res <;> simp_all [pyMain, make_input_run, mkdirEffects, dirExists]

/-- C7 witness: with permission denied on directory creation and
Scenario A data, the run still reaches the write stage, which then fails
at the open. -/
theorem make_dir_swallows_creation_failures_witness :
    (pyMain [ni56] rxA 5 8 2 ⟨1, 1, 25⟩ .permissionDenied 0 "runs").2 =
      .error "FileNotFoundError: run directory missing" :=
  ((make_dir_swallows_creation_failures "p" "56Ni" 5 8 2 ⟨1, 1, 25⟩ [ni56] rxA 0
    "runs").2.2 .permissionDenied ⟨"56Ni", "p", "g", "57Cu"⟩ scenarioAContent
    rfl rfl rfl).1

/-- C8: Scenario A — single 56Ni nuclide row, single p+56Ni reaction,
parameters (5,8,2), date 01-01-25: the directory name is
`Run-010125_p56Ni-582` and the written file contains the lines
`element 28`, `mass 56` and `massexcess 28 56 -53.900`. -/
theorem scenario_a_outputs :
    make_dir "p" "56Ni" 5 8 2 ⟨1, 1, 25⟩ .created = "Run-010125_p56Ni-582" ∧
    make_input_content [ni56] rxA 0 5 8 2 = .ok scenarioAContent ∧
    (∃ u v : String, scenarioAContent = u ++ "element 28\n" ++ v) ∧
    (∃ u v : String, scenarioAContent = u ++ "mass 56\n" ++ v) ∧
    (∃ u v : String, scenarioAContent = u ++ "massexcess 28 56 -53.900\n" ++ v) :=
  ⟨rfl, rfl,
   ⟨"energy 0.1\nprojectile p\n",
    "mass 56\nldmodel 5\nstrength 8\nmassmodel 2\nastro y\ntranseps 1e-25\nxseps 1e-25\npopeps 1e-25\ngnorm y\noutlevels y\noutdensity y\noutgamma y\nexpmass y\nmassexcess 28 56 -53.900\n",
    rfl⟩,
   ⟨"energy 0.1\nprojectile p\nelement 28\n",
    "ldmodel 5\nstrength 8\nmassmodel 2\nastro y\ntranseps 1e-25\nxseps 1e-25\npopeps 1e-25\ngnorm y\noutlevels y\noutdensity y\noutgamma y\nexpmass y\nmassexcess 28 56 -53.900\n",
    rfl⟩,
   ⟨"energy 0.1\nprojectile p\nelement 28\nmass 56\nldmodel 5\nstrength 8\nmassmodel 2\nastro y\ntranseps 1e-25\nxseps 1e-25\npopeps 1e-25\ngnorm y\noutlevels y\noutdensity y\noutgamma y\nexpmass y\n",
    "", rfl⟩⟩

/-- C9: if the first nuclide row matching the reaction's target has a Z
or A cell not convertible by `int()`, `make_input` fails fatally before
the file is opened: an error is raised and the file is left untouched
(rows elsewhere with bad values are merely dropped, see the filtering
theorem). -/
theorem bad_target_int_fatal (nucl_info : List Nuclide) (reactions : List Reaction)
    (process : Nat) (l s m : Int) (reaction : Reaction) (row : Nuclide)
    (prev : Option String)
    (h1 : reactions[process]? = some reaction)
    (h2 : nucl_info.find? (fun r => r.ydin == reaction.target) = some row)
    (h3 : pyInt row.z = none ∨ pyInt row.a = none) :
    (∃ e, make_input_content nucl_info reactions process l s m = .error e) ∧
    make_input_fs prev nucl_info reactions process l s m = prev := by
  cases hz : pyInt row.z with
  | none =>
    refine ⟨⟨"ValueError: target Z not an integer", ?_⟩, ?_⟩
    · simp [make_input_content, h1, h2, hz]
    · simp [make_input_fs, make_input_content, h1, h2, hz]
  | some Z_target =>
    have ha : pyInt row.a = none := by
      cases h3 with
      | inl h => rw [hz] at h; exact absurd h (by simp)
      | inr h => exact h
    refine ⟨⟨"ValueError: target A not an integer", ?_⟩, ?_⟩
    · simp [make_input_content, h1, h2, hz, ha]
    · simp [make_input_fs, make_input_content, h1, h2, hz, ha]

/-- C9 witness: a target row whose Z cell is the string "n/a". -/
theorem bad_target_int_fatal_witness :
    (∃ e, make_input_content [ni56badZ] rxA 0 5 8 2 = .error e) ∧
    make_input_fs none [ni56badZ] rxA 0 5 8 2 = none :=
  bad_target_int_fatal [ni56badZ] rxA 0 5 8 2 ⟨"56Ni", "p", "g", "57Cu"⟩ ni56badZ none
    rfl rfl (Or.inl rfl)

/-- Tables agreeing row-by-row on the used columns filter identically. -/
theorem df_me_congr : ∀ {xs ys : List Nuclide},
    List.Forall₂ SameUsedColumns xs ys → df_me xs = df_me ys := by
  intro xs ys h
  induction h with
  | nil => rfl
  | @cons a₁ a₂ l₁ l₂ hr htl ih =>
    obtain ⟨-, hz, ha, hme⟩ := hr
    simp only [df_me, List.filterMap_cons] at ih ⊢
    rw [hz, ha, hme, ih]

/-- Tables agreeing row-by-row on the used columns find related target
rows: both lookups fail, or both succeed with rows agreeing on the used
columns. -/
theorem find_target_congr (t : String) : ∀ {xs ys : List Nuclide},
    List.Forall₂ SameUsedColumns xs ys →
    ((xs.find? fun r => r.ydin == t) = none ∧ (ys.find? fun r => r.ydin == t) = none) ∨
    (∃ r₁ r₂, (xs.find? fun r => r.ydin == t) = some r₁ ∧
      (ys.find? fun r => r.ydin == t) = some r₂ ∧ SameUsedColumns r₁ r₂) := by
  intro xs ys h
  induction h with
  | nil => left; exact ⟨rfl, rfl⟩
  | @cons a₁ a₂ l₁ l₂ hr htl ih =>
    by_cases hb : a₁.ydin == t
    · right
      refine ⟨a₁, a₂, List.find?_cons_of_pos _ hb, List.find?_cons_of_pos _ ?_, hr⟩
      rw [← hr.1]
      exact hb
    · have hb₂ : ¬(a₂.ydin == t) = true := by
        rw [← hr.1]
        exact hb
      rw [@List.find?_cons_of_neg _ (fun r => r.ydin == t) a₁ l₁ hb,
        @List.find?_cons_of_neg _ (fun r => r.ydin == t) a₂ l₂ hb₂]
      exact ih

/-- C10: the N column and the second mass-excess column (MEAME20) never
influence the output: two nuclide tables agreeing row-by-row on Ydin, Z,
A and MEJYFL yield identical generated content and identical final file
states, for all remaining arguments. -/
theorem unused_columns_no_influence (nucl₁ nucl₂ : List Nuclide)
    (reactions : List Reaction) (process : Nat) (l s m : Int)
    (h : List.Forall₂ SameUsedColumns nucl₁ nucl₂) :
    make_input_content nucl₁ reactions process l s m =
      make_input_content nucl₂ reactions process l s m ∧
    ∀ prev, make_input_fs prev nucl₁ reactions process l s m =
      make_input_fs prev nucl₂ reactions process l s m := by
  have hcontent : make_input_content nucl₁ reactions process l s m =
      make_input_content nucl₂ reactions process l s m := by
    cases hre : reactions[process]? with
    | none => simp [make_input_content, hre]
    | some reaction =>
      rcases find_target_congr reaction.target h with ⟨hn1, hn2⟩ | ⟨r₁, r₂, hs1, hs2, hrel⟩
      · simp [make_input_content, hre, hn1, hn2]
      · obtain ⟨hy, hz, ha, hme⟩ := hrel
        simp [make_input_content, hre, hs1, hs2, hz, ha, df_me_congr h]
  exact ⟨hcontent, fun prev => by simp [make_input_fs, hcontent]⟩

/-- C10 witness: perturbing N and MEAME20 of the Scenario A row leaves
the generated content unchanged. -/
theorem unused_columns_no_influence_witness :
    make_input_content [ni56] rxA 0 5 8 2 = make_input_content [ni56alt] rxA 0 5 8 2 :=
  (unused_columns_no_influence [ni56] [ni56alt] rxA 0 5 8 2
    (List.Forall₂.cons ⟨rfl, rfl, rfl, rfl⟩ List.Forall₂.nil)).1

end MassrunTALYS
